import Mathlib

/-!
# Verification of the PyJHora analysis core

Shallow embedding, in Lean 4, of the deterministic core of the PyJHora
repository: the Vimshottari dasha (period) calculators, the knowledge-base
rule matcher and ingestion, the synastry (compatibility) factor scorers and
the workflow engine.  Python floats that only ever hold exact values in the
algorithms at issue are modelled as rationals (`ℚ`); Python `%` (which takes
the sign of the divisor) is modelled explicitly via the floor function;
Python exceptions are modelled with `Except`.
-/

set_option autoImplicit false

/-- Python's `%` on numbers: `a % b = a - b * floor (a / b)`; for a positive
modulus the result is always in `[0, b)` regardless of the sign of `a`.
Used to embed `years_lived % total_years_cycle` and `days % total_days`. -/
def pymod (a b : ℚ) : ℚ := a - b * (⌊a / b⌋ : ℤ)

theorem pymod_eq_mul_fract (a b : ℚ) (hb : b ≠ 0) :
    pymod a b = b * Int.fract (a / b) := by
  unfold pymod Int.fract
  field_simp

theorem pymod_nonneg (a b : ℚ) (hb : 0 < b) : 0 ≤ pymod a b := by
  rw [pymod_eq_mul_fract a b hb.ne.symm]
  have h := Int.fract_nonneg (a / b)
  positivity

theorem pymod_lt (a b : ℚ) (hb : 0 < b) : pymod a b < b := by
  rw [pymod_eq_mul_fract a b hb.ne.symm]
  have h := Int.fract_lt_one (a / b)
  calc b * Int.fract (a / b) < b * 1 := (mul_lt_mul_left hb).2 h
    _ = b := mul_one b

theorem pymod_eq_self (a b : ℚ) (hb : 0 < b) (h0 : 0 ≤ a) (h1 : a < b) :
    pymod a b = a := by
  have hfloor : ⌊a / b⌋ = 0 := by
    rw [Int.floor_eq_zero_iff]
    constructor
    · positivity
    · rw [div_lt_one hb]; exact h1
  unfold pymod
  rw [hfloor]
  push_cast
  ring

theorem pymod_idem (a b : ℚ) (hb : 0 < b) : pymod (pymod a b) b = pymod a b :=
  pymod_eq_self _ _ hb (pymod_nonneg a b hb) (pymod_lt a b hb)

theorem pymod_add_right (a b : ℚ) (hb : 0 < b) : pymod (a + b) b = pymod a b := by
  unfold pymod
  have : (a + b) / b = a / b + 1 := by field_simp
  rw [this, Int.floor_add_one]
  push_cast
  ring

namespace VedicV4

/-! ## `src/src/jhora/vedic_v4_predictor.py`, class `PredictionEngine`

`self.dasha_lords` maps index 0..8 to a planet name and `self.dasha_years`
gives the duration of each dasha; the two lists below transcribe them. -/

def dasha_lords : List String :=
  ["Ketu", "Venus", "Sun", "Moon", "Mars", "Rahu", "Jupiter", "Saturn", "Mercury"]

def dasha_years : List ℚ := [7, 20, 6, 10, 7, 18, 16, 19, 17]

/-- The `for i in range(9)` search loop of `calculate_vimshottari_dasha`:
at each step `idx = (start_dasha + i) % 9`, with `years = dasha_years[idx]`;
if `cumulative <= years_in_cycle < cumulative + years` the loop breaks with
the current dasha name and `years_left = cumulative + years - years_in_cycle`,
otherwise `cumulative += years`.  If all nine iterations pass without a break
the Python code hits an unbound local (`current_dasha`) and the surrounding
`except` turns that into an error result, modelled as `none`. -/
def findDasha : ℕ → ℕ → ℚ → ℚ → Option (String × ℚ)
  | 0, _, _, _ => none
  | fuel + 1, idx, cumulative, yearsInCycle =>
    let years := dasha_years.getD (idx % 9) 0
    let name := dasha_lords.getD (idx % 9) ""
    if cumulative ≤ yearsInCycle ∧ yearsInCycle < cumulative + years then
      some (name, cumulative + years - yearsInCycle)
    else
      findDasha fuel (idx + 1) (cumulative + years) yearsInCycle

/-- `PredictionEngine.calculate_vimshottari_dasha`, its core arithmetic.

The Python function derives `years_lived = (today - birth).days / 365.25`
from a date string and the wall clock; the embedding takes that elapsed
amount (in year units) directly as a rational parameter.  Then
`start_dasha = moon_nakshatra % 9`, `years_in_cycle = years_lived % 120`
(Python modulo: nonnegative result), and the nine-step search loop above
yields the current dasha name and the years remaining in it. -/
def calculate_vimshottari_dasha (moon_nakshatra : ℤ) (years_lived : ℚ) :
    Option (String × ℚ) :=
  findDasha 9 (moon_nakshatra % 9).toNat 0 (pymod years_lived dasha_years.sum)

theorem dasha_years_sum : dasha_years.sum = 120 := by
  norm_num [dasha_years]

end VedicV4

/-- C1: with the nine dasha durations `[7,20,6,10,7,18,16,19,17]` (cycle
length 120), a nakshatra seed that rotates the sequence to start at index 3
(`"Moon"`), and an elapsed offset of exactly 37 units after birth, the
active-period computation returns `"Jupiter"` with 14 units remaining
(rotated cumulative ranges: Moon 0–10, Mars 10–17, Rahu 17–35,
Jupiter 35–51). -/
theorem vimshottari_at_37_is_jupiter :
    VedicV4.calculate_vimshottari_dasha 3 37 = some ("Jupiter", 14) := by
  have h : pymod 37 VedicV4.dasha_years.sum = 37 := by
    rw [VedicV4.dasha_years_sum]
    exact pymod_eq_self _ _ (by norm_num) (by norm_num) (by norm_num)
  unfold VedicV4.calculate_vimshottari_dasha
  rw [h]
  simp [VedicV4.findDasha, VedicV4.dasha_years, VedicV4.dasha_lords]
  norm_num

/-- C5 counterexample: queried one unit before birth (elapsed −1) with seed 3,
the computation returns `("Sun", 1)` — the negative elapsed value is wrapped
around the 120-unit cycle by Python's modulo — whereas a query at the birth
instant itself returns `("Moon", 10)`; so an earlier-than-birth query is not
treated as elapsed 0. -/
theorem vimshottari_negative_elapsed_wraps :
    VedicV4.calculate_vimshottari_dasha 3 (-1) = some ("Sun", 1) ∧
    VedicV4.calculate_vimshottari_dasha 3 0 = some ("Moon", 10) ∧
    VedicV4.calculate_vimshottari_dasha 3 (-1) ≠
      VedicV4.calculate_vimshottari_dasha 3 0 := by
  have h1 : VedicV4.calculate_vimshottari_dasha 3 (-1) = some ("Sun", 1) := by
    have h : pymod (-1) VedicV4.dasha_years.sum = 119 := by
      rw [VedicV4.dasha_years_sum]
      have h2 := pymod_add_right (-1) 120 (by norm_num)
      rw [show (-1 : ℚ) + 120 = 119 by norm_num] at h2
      rw [← h2]
      exact pymod_eq_self _ _ (by norm_num) (by norm_num) (by norm_num)
    unfold VedicV4.calculate_vimshottari_dasha
    rw [h]
    simp [VedicV4.findDasha, VedicV4.dasha_years, VedicV4.dasha_lords]
    norm_num
  have h2 : VedicV4.calculate_vimshottari_dasha 3 0 = some ("Moon", 10) := by
    have h : pymod 0 VedicV4.dasha_years.sum = 0 := by
      rw [VedicV4.dasha_years_sum]
      exact pymod_eq_self _ _ (by norm_num) (by norm_num) (by norm_num)
    unfold VedicV4.calculate_vimshottari_dasha
    rw [h]
    simp [VedicV4.findDasha, VedicV4.dasha_years, VedicV4.dasha_lords]
  refine ⟨h1, h2, ?_⟩
  intro hcontra
  rw [h1, h2] at hcontra
  have hstr : ("Sun" : String) = "Moon" :=
    congrArg (fun o => (Option.getD o ("", 0)).1) hcontra
  exact (by decide : ("Sun" : String) ≠ "Moon") hstr

/-- C5 amended: for every seed and every elapsed amount, the active-period
computation reduces the elapsed value modulo the 120-unit cycle — the result
at elapsed `e` equals the result at `e mod 120` (Python semantics, nonnegative
remainder), and the computation is periodic with period 120.  In particular a
query earlier than the birth instant wraps its negative elapsed value around
the cycle rather than being clamped to elapsed 0 (the whole-cycle modulo
reduction, not iteration, is what locates far-future periods as well). -/
theorem vimshottari_locates_by_modulo (nak : ℤ) (e : ℚ) :
    VedicV4.calculate_vimshottari_dasha nak e =
      VedicV4.calculate_vimshottari_dasha nak (pymod e 120) ∧
    VedicV4.calculate_vimshottari_dasha nak (e + 120) =
      VedicV4.calculate_vimshottari_dasha nak e := by
  constructor
  · unfold VedicV4.calculate_vimshottari_dasha
    rw [VedicV4.dasha_years_sum, pymod_idem e 120 (by norm_num)]
  · unfold VedicV4.calculate_vimshottari_dasha
    rw [VedicV4.dasha_years_sum, pymod_add_right e 120 (by norm_num)]

namespace KB

/-! ## `src/attached_assets/b0e7685b_1766563646138.py`, class `KnowledgeBase`

The rule matcher `apply_rule` works over duck-typed dictionaries.  The value
universe the matcher distinguishes is embedded as `PyVal`: the absent-field
sentinel `None` (what `chart_data.get(key)` returns for a missing key),
numbers (ints and floats, exact here), and strings.  A condition value is
either a scalar (tested with `==`), a list (tested with `in`), or a dict
carrying optional numeric `min`/`max` bounds (a dict with neither key leaves
`applies` untouched). -/

inductive PyVal where
  | pyNone
  | num (q : ℚ)
  | str (s : String)
deriving DecidableEq

inductive CondVal where
  | scalar (v : PyVal)
  | oneOf (vs : List PyVal)
  | range (mi ma : Option ℚ)
deriving DecidableEq

/-- A chart's field→value view: the open `chart_data` dict. -/
def Chart : Type := List (String × PyVal)

/-- `chart_data.get(key)`: `None` when the key is absent. -/
def chart_get (chart : Chart) (key : String) : PyVal :=
  (List.lookup key chart).getD PyVal.pyNone

/-- One iteration of the condition loop in `KnowledgeBase.apply_rule`, as it
executes while `applies` is still `True` (once `applies` is `False` the
Python `and` short-circuits and no further condition is evaluated):

* scalar: `chart_value == value`;
* list: `chart_value in value`;
* dict with a `min` or `max` key: `min_val <= chart_value <= max_val` with
  `float('-inf')`/`float('inf')` defaults — comparing those float bounds
  against `None` (absent field) or a string raises `TypeError`, embedded as
  `Except.error ()`;
* dict with neither key: no test is performed (`applies` is unchanged). -/
def evalCond (chart : Chart) : String × CondVal → Except Unit Bool
  | (key, .scalar v) => .ok (chart_get chart key == v)
  | (key, .oneOf vs) => .ok (vs.contains (chart_get chart key))
  | (key, .range mi ma) =>
    if mi = none ∧ ma = none then .ok true
    else
      match chart_get chart key with
      | .num q =>
        .ok ((match mi with
              | some m => decide (m ≤ q)
              | none => true) &&
             (match ma with
              | some m => decide (q ≤ m)
              | none => true))
      | _ => .error ()

/-- The `for key, value in conditions.items()` loop of `apply_rule` with its
`applies = applies and (...)` accumulator: the first condition that evaluates
to `False` freezes `applies` (later conditions are skipped by short-circuit),
and a `TypeError` raised by a range test propagates out of the loop. -/
def applyConds (chart : Chart) : List (String × CondVal) → Except Unit Bool
  | [] => .ok true
  | c :: rest =>
    match evalCond chart c with
    | .error e => .error e
    | .ok b => if b then applyConds chart rest else .ok false

/-- A rule as `apply_rule` consumes it: its (insertion-ordered) condition
items, `rule.get('strength', 1.0)` and
`rule.get('interpretation', rule.get('meaning', ''))`.  This models a
non-empty rule dict (the `if not rule` guard for the empty dict returns a
non-match up front and involves no condition evaluation). -/
structure MatchRule where
  conditions : List (String × CondVal)
  strength : ℚ
  interpretation : String
deriving DecidableEq

/-- `KnowledgeBase.apply_rule(rule, chart_data)`: `(True, strength,
interpretation)` on a full match, `(False, 0.0, "")` otherwise; an uncaught
`TypeError` from a range condition is the error case. -/
def apply_rule (rule : MatchRule) (chart : Chart) :
    Except Unit (Bool × ℚ × String) :=
  match applyConds chart rule.conditions with
  | .error e => .error e
  | .ok true => .ok (true, rule.strength, rule.interpretation)
  | .ok false => .ok (false, 0, "")

/-- The value of one condition when it evaluates without fault. -/
def condHolds (chart : Chart) (c : String × CondVal) : Bool :=
  match evalCond chart c with
  | .ok b => b
  | .error _ => false

theorem applyConds_eq_all (chart : Chart) (conds : List (String × CondVal))
    (hok : ∀ c ∈ conds, ∃ b, evalCond chart c = .ok b) :
    applyConds chart conds = .ok (conds.all (condHolds chart)) := by
  induction conds with
  | nil => rfl
  | cons c rest ih =>
    obtain ⟨b, hb⟩ := hok c (List.mem_cons_self c rest)
    have hrest := ih (fun x hx => hok x (List.mem_cons_of_mem c hx))
    unfold applyConds
    rw [hb]
    cases b with
    | false =>
      simp [List.all_cons, condHolds, hb]
    | true =>
      simp [List.all_cons, condHolds, hb, hrest]

theorem all_of_perm {α : Type} {l l' : List α} (h : l.Perm l') (p : α → Bool) :
    l.all p = l'.all p := by
  induction h with
  | nil => rfl
  | cons x _ ih => simp [List.all_cons, ih]
  | swap x y l => simp [List.all_cons, Bool.and_left_comm]
  | trans _ _ ih1 ih2 => rw [ih1, ih2]

/-- A chart holding only `x = 2`, and two rules over it that pair a failing
equality condition on `x` with a range condition on the absent field `y`, in
the two possible orders. -/
def chartX : Chart := [("x", PyVal.num 2)]

def condEqX : String × CondVal := ("x", CondVal.scalar (PyVal.num 1))

def condRangeY : String × CondVal := ("y", CondVal.range (some 1) (some 4))

def ruleEqThenRange : MatchRule := ⟨[condEqX, condRangeY], 1, "r"⟩

def ruleRangeThenEq : MatchRule := ⟨[condRangeY, condEqX], 1, "r"⟩

end KB

/-- C2 counterexample: two rules whose condition lists are permutations of
one another — a failing equality on `x` and a range test on the absent field
`y` — evaluated against the same chart `{x: 2}` do not produce the same
outcome: with the equality first the rule quietly reports a non-match (the
short-circuited conjunction never reaches the range test), with the range
test first the matcher raises a `TypeError` (comparing a float bound with
`None`).  Permuting conditions therefore can change the matcher's outcome. -/
theorem apply_rule_order_dependent :
    KB.ruleEqThenRange.conditions.Perm KB.ruleRangeThenEq.conditions ∧
    KB.apply_rule KB.ruleEqThenRange KB.chartX = .ok (false, 0, "") ∧
    KB.apply_rule KB.ruleRangeThenEq KB.chartX = .error () := by
  refine ⟨List.Perm.swap KB.condRangeY KB.condEqX [], ?_, ?_⟩ <;>
    simp [KB.apply_rule, KB.applyConds, KB.evalCond, KB.chart_get,
      KB.ruleEqThenRange, KB.ruleRangeThenEq, KB.condEqX, KB.condRangeY,
      KB.chartX, List.lookup]

/-- C2 amended: permuting the conditions of a rule never changes the outcome
of the matcher provided every condition of the rule evaluates without a type
fault on the given chart (in particular whenever no `Range` condition sits
over an absent or non-numeric field); under that proviso the conjunction's
short-circuiting is unobservable.  Without it, reordering can exchange a
quiet non-match for a raised `TypeError` (see the counterexample). -/
theorem apply_rule_perm_invariant (r r' : KB.MatchRule) (chart : KB.Chart)
    (hperm : r.conditions.Perm r'.conditions)
    (hs : r.strength = r'.strength)
    (hi : r.interpretation = r'.interpretation)
    (hok : ∀ c ∈ r.conditions, ∃ b, KB.evalCond chart c = .ok b) :
    KB.apply_rule r chart = KB.apply_rule r' chart := by
  have hok' : ∀ c ∈ r'.conditions, ∃ b, KB.evalCond chart c = .ok b :=
    fun c hc => hok c (hperm.symm.subset hc)
  unfold KB.apply_rule
  rw [KB.applyConds_eq_all chart r.conditions hok,
    KB.applyConds_eq_all chart r'.conditions hok',
    KB.all_of_perm hperm (KB.condHolds chart), hs, hi]

/-- Witness for `apply_rule_perm_invariant`: both orders of two everywhere-
evaluable equality conditions give the same outcome on the chart `{x: 2}`. -/
theorem apply_rule_perm_invariant_witness :
    KB.apply_rule ⟨[KB.condEqX, ("y", KB.CondVal.scalar (KB.PyVal.num 3))], 1, "r"⟩
        KB.chartX =
      KB.apply_rule ⟨[("y", KB.CondVal.scalar (KB.PyVal.num 3)), KB.condEqX], 1, "r"⟩
        KB.chartX := by
  apply apply_rule_perm_invariant
  · exact List.Perm.swap ("y", KB.CondVal.scalar (KB.PyVal.num 3)) KB.condEqX []
  · rfl
  · rfl
  · intro c hc
    rcases List.mem_cons.1 hc with h | h
    · exact ⟨KB.condHolds KB.chartX c, by rw [h]; rfl⟩
    · rcases List.mem_cons.1 h with h2 | h2
      · exact ⟨KB.condHolds KB.chartX c, by rw [h2]; rfl⟩
      · cases h2

/-- C3 counterexample: a rule consisting of the single condition
`Range(y, 1, 4)` evaluated against the empty chart (so `y` is absent) makes
the matcher raise a `TypeError` (`float('-inf') <= None`) instead of
reporting a non-match: the matcher is not total. -/
theorem apply_rule_raises_on_absent_range :
    KB.apply_rule ⟨[KB.condRangeY], 1, "r"⟩ [] = .error () := by
  simp [KB.apply_rule, KB.applyConds, KB.evalCond, KB.chart_get,
    KB.condRangeY, List.lookup]

/-- C3 amended: the matcher never raises on a rule whose conditions are all
`Equals`/`OneOf` tests, and for such conditions an absent field is resolved
to `None` and compared like any value: an `Equals` condition over an absent
field matches exactly when its target value is itself `None` (Python's
`None == None`) and is otherwise a quiet non-match, a `OneOf` condition over
an absent field matches exactly when its list contains `None`, and neither
ever errors; but a `Range` condition carrying at least one bound faults with
a `TypeError` whenever the field it inspects is absent or holds a
non-numeric value, so the matcher is total only away from such range
conditions. -/
theorem apply_rule_totality_boundary :
    (∀ (r : KB.MatchRule) (chart : KB.Chart),
      (∀ c ∈ r.conditions, ∀ mi ma, c.2 ≠ KB.CondVal.range mi ma) →
      ∃ out, KB.apply_rule r chart = .ok out) ∧
    (∀ (chart : KB.Chart) (key : String) (v : KB.PyVal),
      KB.chart_get chart key = KB.PyVal.pyNone →
      KB.evalCond chart (key, KB.CondVal.scalar v) =
        .ok (KB.PyVal.pyNone == v)) ∧
    (∀ (chart : KB.Chart) (key : String) (vs : List KB.PyVal),
      KB.chart_get chart key = KB.PyVal.pyNone →
      KB.evalCond chart (key, KB.CondVal.oneOf vs) =
        .ok (vs.contains KB.PyVal.pyNone)) ∧
    (∀ (chart : KB.Chart) (key : String) (mi ma : Option ℚ),
      ¬(mi = none ∧ ma = none) →
      (∀ q : ℚ, KB.chart_get chart key ≠ KB.PyVal.num q) →
      KB.evalCond chart (key, KB.CondVal.range mi ma) = .error ()) := by
  refine ⟨?_, ?_, ?_, ?_⟩
  · intro r chart hnr
    suffices h : ∃ b, KB.applyConds chart r.conditions = .ok b by
      obtain ⟨b, hb⟩ := h
      unfold KB.apply_rule
      rw [hb]
      cases b
      · exact ⟨(false, 0, ""), rfl⟩
      · exact ⟨(true, r.strength, r.interpretation), rfl⟩
    have hok : ∀ c ∈ r.conditions, ∃ b, KB.evalCond chart c = .ok b := by
      intro c hc
      obtain ⟨key, cv⟩ := c
      cases cv with
      | scalar v => exact ⟨_, rfl⟩
      | oneOf vs => exact ⟨_, rfl⟩
      | range mi ma => exact absurd rfl (hnr (key, .range mi ma) hc mi ma)
    exact ⟨_, KB.applyConds_eq_all chart r.conditions hok⟩
  · intro chart key v habs
    simp only [KB.evalCond]
    rw [habs]
  · intro chart key vs habs
    simp only [KB.evalCond]
    rw [habs]
  · intro chart key mi ma hbound habs
    simp only [KB.evalCond]
    rw [if_neg hbound]

namespace Workflow

/-! ## `src/attached_assets/7fc022f6_1766563646172.py`, class `WorkflowEngine`

`execute_workflow(workflow_name, data)` looks the name up in the registered
`self.workflows` dict; on a miss it returns `{'error': ...}` immediately,
touching neither `self.state` nor `self.execution_log`.  On a hit it sets
`state = ANALYZING`, runs the steps in order — each step receives `data` and
the accumulated `results` dict, whose entry for the step name is written on
success, and a log entry is appended — and on an exception sets
`state = ERROR` and returns the error together with `completed_steps`; after
all steps it sets `state = COMPLETE`.  Step payloads and results are opaque
here (`Input`/`Val`); a step body is an arbitrary function that either
returns a value or raises. -/

/-- `WorkflowState` (the states the engine actually assigns around
`execute_workflow`; `LOADING`/`PREDICTING` are set elsewhere). -/
inductive WState where
  | IDLE
  | LOADING
  | ANALYZING
  | PREDICTING
  | COMPLETE
  | ERROR
deriving DecidableEq

abbrev Input : Type := List (String × String)

abbrev Val : Type := String

/-- `results[step.name] = result` — Python dict assignment: overwrite in
place when the key exists, append otherwise. -/
def dictSet (m : List (String × Val)) (k : String) (v : Val) :
    List (String × Val) :=
  if (m.map Prod.fst).contains k then
    m.map (fun p => if p.1 = k then (k, v) else p)
  else
    m ++ [(k, v)]

/-- `WorkflowStep`: a name and a method `(data, results) -> result` that may
raise. -/
structure WStep where
  name : String
  method : Input → List (String × Val) → Except String Val

/-- An entry of `self.execution_log`: workflow name, step name, status. -/
abbrev LogEntry : Type := String × String × String

structure WorkflowEngine where
  workflows : List (String × List WStep)
  state : WState
  execution_log : List LogEntry

/-- The `for step in workflow` loop inside the `try`: on success the result
is recorded under the step name and a log entry is appended; an exception
escapes with the results accumulated so far. -/
def runSteps (wfName : String) (data : Input) :
    List WStep → List (String × Val) → List LogEntry →
    (Except (String × List (String × Val)) (List (String × Val))) × List LogEntry
  | [], results, log => (.ok results, log)
  | step :: rest, results, log =>
    match step.method data results with
    | .error e => (.error (e, results), log)
    | .ok v =>
      runSteps wfName data rest (dictSet results step.name v)
        (log ++ [(wfName, step.name, "success")])

/-- The value `execute_workflow` returns. -/
inductive ExecResult where
  | unknownWorkflow (msg : String)
  | failed (error : String) (completed_steps : List (String × Val))
  | success (results : List (String × Val))
deriving DecidableEq

/-- `WorkflowEngine.execute_workflow(workflow_name, data)`, returning the
updated engine together with the result dict. -/
def execute_workflow (eng : WorkflowEngine) (workflow_name : String)
    (data : Input) : WorkflowEngine × ExecResult :=
  match List.lookup workflow_name eng.workflows with
  | none => (eng, .unknownWorkflow ("Workflow " ++ workflow_name ++ " not found"))
  | some workflow =>
    match runSteps workflow_name data workflow [] eng.execution_log with
    | (.error (e, results), log) =>
      ({ eng with state := .ERROR, execution_log := log }, .failed e results)
    | (.ok results, log) =>
      ({ eng with state := .COMPLETE, execution_log := log },
        .success results)

end Workflow

/-- C6: running a workflow name that is not registered returns the
unknown-workflow error and performs no state transition at all: the engine
after the call (state, log, registry) is exactly the engine before the call,
and no step results are recorded. -/
theorem execute_workflow_unknown_name (eng : Workflow.WorkflowEngine)
    (name : String) (data : Workflow.Input)
    (habs : List.lookup name eng.workflows = none) :
    Workflow.execute_workflow eng name data =
      (eng, .unknownWorkflow ("Workflow " ++ name ++ " not found")) := by
  unfold Workflow.execute_workflow
  rw [habs]

/-- Witness for `execute_workflow_unknown_name`: a fresh engine with an
empty registry queried for `"marriage"`. -/
theorem execute_workflow_unknown_name_witness :
    Workflow.execute_workflow ⟨[], .IDLE, []⟩ "marriage" [] =
      (⟨[], .IDLE, []⟩, .unknownWorkflow "Workflow marriage not found") :=
  execute_workflow_unknown_name ⟨[], .IDLE, []⟩ "marriage" [] rfl

theorem runSteps_append (wfName : String) (data : Workflow.Input)
    (l1 l2 : List Workflow.WStep) (acc : List (String × Workflow.Val))
    (log : List Workflow.LogEntry) :
    Workflow.runSteps wfName data (l1 ++ l2) acc log =
      match Workflow.runSteps wfName data l1 acc log with
      | (.ok results, lg) => Workflow.runSteps wfName data l2 results lg
      | (.error p, lg) => (.error p, lg) := by
  induction l1 generalizing acc log with
  | nil => rfl
  | cons step rest ih =>
    cases h : step.method data acc with
    | error e =>
      simp only [List.cons_append, Workflow.runSteps, h]
    | ok v =>
      simp only [List.cons_append, Workflow.runSteps, h]
      exact ih _ _

/-- C7: if a registered workflow's step list splits as `pre ++ fail :: post`,
where every step of `pre` succeeds in order (accumulating results `R`) and
`fail` then raises, the run ends in the `ERROR` state, the returned result
carries exactly the results `R` of the steps completed before the failure
(no entry for the failing step), and nothing after the failing step is ever
attempted: the quantified tail `post` does not influence the outcome. -/
theorem execute_workflow_stops_at_failure (eng : Workflow.WorkflowEngine)
    (name : String) (data : Workflow.Input)
    (pre : List Workflow.WStep) (failStep : Workflow.WStep)
    (post : List Workflow.WStep)
    (R : List (String × Workflow.Val)) (log' : List Workflow.LogEntry)
    (e : String)
    (hlook : List.lookup name eng.workflows = some (pre ++ failStep :: post))
    (hpre : Workflow.runSteps name data pre [] eng.execution_log =
      (.ok R, log'))
    (hfail : failStep.method data R = .error e) :
    Workflow.execute_workflow eng name data =
      ({ eng with state := .ERROR, execution_log := log' }, .failed e R) := by
  have hrun : Workflow.runSteps name data (pre ++ failStep :: post) []
      eng.execution_log = (.error (e, R), log') := by
    rw [runSteps_append, hpre]
    show Workflow.runSteps name data (failStep :: post) R log' = _
    unfold Workflow.runSteps
    rw [hfail]
  unfold Workflow.execute_workflow
  rw [hlook]
  dsimp only
  rw [hrun]

def stepA : Workflow.WStep := ⟨"a", fun _ _ => .ok "1"⟩

def stepBoom : Workflow.WStep := ⟨"b", fun _ _ => .error "boom"⟩

def stepC : Workflow.WStep := ⟨"c", fun _ _ => .ok "3"⟩

def engW : Workflow.WorkflowEngine :=
  ⟨[("wf", [stepA, stepBoom, stepC])], .IDLE, []⟩

/-- Witness for `execute_workflow_stops_at_failure`: a three-step workflow
whose second step raises keeps exactly the first step's result, ends in
`ERROR`, and never runs the third step. -/
theorem execute_workflow_stops_at_failure_witness :
    Workflow.execute_workflow engW "wf" [] =
      (⟨[("wf", [stepA, stepBoom, stepC])], .ERROR, [("wf", "a", "success")]⟩,
        .failed "boom" [("a", "1")]) :=
  execute_workflow_stops_at_failure engW "wf" [] [stepA] stepBoom [stepC]
    [("a", "1")] [("wf", "a", "success")] "boom" rfl rfl rfl

namespace Synastry

/-! ## `src/attached_assets/vpnadijay_1766563646002.py`, class `SynastryAnalyzer`

The eight Kuta Milan factor scorers and `calculate_total_compatibility`.
Only the `ChartData` fields these functions read are modelled: `moon_sign`
(a Python int, not range-checked by the code), `moon_nakshatra` (an optional
string) and the keys of the `planets` dict. -/

structure ChartData where
  moon_sign : ℤ
  moon_nakshatra : Option String
  planets : List String

/-- The `varna_hierarchy` dict of `calculate_varna_kuta` with its
`.get(varna, 0)` default. -/
def varna_hierarchy (v : String) : ℕ :=
  if v = "Shudra" then 1
  else if v = "Vaishya" then 2
  else if v = "Kshatriya" then 3
  else if v = "Brahmin" then 4
  else 0

/-- The inner `get_varna_from_sign` table with its `"Unknown"` default. -/
def get_varna_from_sign (sign_num : ℤ) : String :=
  if sign_num = 1 then "Kshatriya"
  else if sign_num = 2 then "Vaishya"
  else if sign_num = 3 then "Shudra"
  else if sign_num = 4 then "Brahmin"
  else if sign_num = 5 then "Kshatriya"
  else if sign_num = 6 then "Vaishya"
  else if sign_num = 7 then "Shudra"
  else if sign_num = 8 then "Brahmin"
  else if sign_num = 9 then "Kshatriya"
  else if sign_num = 10 then "Vaishya"
  else if sign_num = 11 then "Shudra"
  else if sign_num = 12 then "Brahmin"
  else "Unknown"

/-- `calculate_varna_kuta`: 1 point iff chart A's varna rank is at least
chart B's. -/
def calculate_varna_kuta (a b : ChartData) : ℕ :=
  if varna_hierarchy (get_varna_from_sign a.moon_sign) ≥
      varna_hierarchy (get_varna_from_sign b.moon_sign) then 1 else 0

/-- The `vashya_groups` dict values, in insertion order (the loop returns 2
at the first group containing both moon signs, 0 if none does). -/
def vashya_groups : List (List ℤ) :=
  [[1, 2, 9, 10], [3, 6, 7, 11, 9], [4, 12, 10], [5], [8]]

def calculate_vashya_kuta (a b : ChartData) : ℕ :=
  if vashya_groups.any
      (fun signs => signs.contains a.moon_sign && signs.contains b.moon_sign)
  then 2 else 0

/-- Python truthiness of an optional string (`None` and `""` are falsy). -/
def truthyStr (o : Option String) : Bool :=
  match o with
  | none => false
  | some s => s ≠ ""

/-- `calculate_tara_kuta`: `3 if self.chart_a.moon_nakshatra and
self.chart_b.moon_nakshatra else 0`. -/
def calculate_tara_kuta (a b : ChartData) : ℕ :=
  if truthyStr a.moon_nakshatra && truthyStr b.moon_nakshatra then 3 else 0

/-- `calculate_yoni_kuta`: the function builds a small `yoni_compat` dict but
never consults it — it returns the placeholder neutral score 2
unconditionally. -/
def calculate_yoni_kuta (a b : ChartData) : ℕ := 2

/-- `AstrologyRulesEngine.PLANET_FRIENDSHIP[p]["friends"]` — `none` when `p`
is not a key of the table (Rahu and Ketu have no entry). -/
def PLANET_FRIENDSHIP_friends (p : String) : Option (List String) :=
  if p = "Sun" then some ["Moon", "Mars", "Jupiter"]
  else if p = "Moon" then some ["Sun", "Mercury"]
  else if p = "Mars" then some ["Sun", "Moon", "Jupiter"]
  else if p = "Mercury" then some ["Sun", "Venus"]
  else if p = "Jupiter" then some ["Sun", "Moon", "Mars"]
  else if p = "Venus" then some ["Mercury", "Saturn"]
  else if p = "Saturn" then some ["Mercury", "Venus"]
  else none

/-- The body of the doubly nested loop of `calculate_graha_maitri`: the
contribution of one `(planet_a, planet_b)` pair to `score` — 1 exactly when
the two names are equal, `planet_a` is a key of `PLANET_FRIENDSHIP`, and
`planet_b` is in its friends list. -/
def grahaStep (pa pb : String) : ℕ :=
  if pa = pb then
    match PLANET_FRIENDSHIP_friends pa with
    | some friends => if friends.contains pb then 1 else 0
    | none => 0
  else 0

/-- `calculate_graha_maitri`: the nested loop accumulates `score` over all
pairs from the two charts' planet keys, then returns `min(score, 5)`. -/
def calculate_graha_maitri (a b : ChartData) : ℕ :=
  min
    (a.planets.foldl
      (fun acc pa => b.planets.foldl (fun acc2 pb => acc2 + grahaStep pa pb) acc)
      0)
    5

/-- `calculate_gana_kuta`: placeholder — 6 on equal moon signs, else 3. -/
def calculate_gana_kuta (a b : ChartData) : ℕ :=
  if a.moon_sign = b.moon_sign then 6 else 3

def malefic_positions : List (ℤ × ℤ) := [(2, 1), (2, 12), (6, 8), (8, 6)]

/-- `calculate_bhakuta_kuta`: 0 when the moon-sign pair is in the blocked
set, else the full 7. -/
def calculate_bhakuta_kuta (a b : ChartData) : ℕ :=
  if malefic_positions.contains (a.moon_sign, b.moon_sign) then 0 else 7

/-- The `nadi_map` of `_get_nadi_from_nakshatra`, in insertion order. -/
def nadi_map : List (String × List String) :=
  [("Aadi", ["Ashwini", "Ardra", "Punarvasu", "Uttara Phalguni", "Hasta",
      "Jyeshtha", "Moola", "Shatabhisha", "Purva Bhadra"]),
   ("Madhya", ["Bharani", "Mrigashira", "Pushyami", "Purva Phalguni",
      "Chitra", "Anuradha", "Purva Ashada", "Dhanishta", "Uttara Bhadra"]),
   ("Antya", ["Krittika", "Rohini", "Ashlesha", "Magha", "Swati", "Vishakha",
      "Uttara Ashada", "Shravana", "Revati"])]

/-- `SynastryAnalyzer._get_nadi_from_nakshatra` (the leading underscore is
dropped): the first nadi class whose nakshatra list contains the name,
`None` otherwise. -/
def get_nadi_from_nakshatra (nakshatra : String) : Option String :=
  (nadi_map.find? (fun p => p.2.contains nakshatra)).map Prod.fst

/-- `calculate_nadi_kuta`: with `a_nadi`/`b_nadi` looked up from
`moon_nakshatra or ""`, the Python chain
`if a_nadi and b_nadi and a_nadi != b_nadi: 8 elif a_nadi == b_nadi: 0
else: 4`. -/
def calculate_nadi_kuta (a b : ChartData) : ℕ :=
  let a_nadi := get_nadi_from_nakshatra (a.moon_nakshatra.getD "")
  let b_nadi := get_nadi_from_nakshatra (b.moon_nakshatra.getD "")
  if truthyStr a_nadi && truthyStr b_nadi && decide (a_nadi ≠ b_nadi) then 8
  else if a_nadi = b_nadi then 0
  else 4

/-- The slice of `CompatibilityResult` that
`calculate_total_compatibility` fills in (scores are naturals by
construction, so `0 <= points` holds by typing). -/
structure CompatibilityResult where
  varna_score : ℕ
  vashya_score : ℕ
  tara_score : ℕ
  yoni_score : ℕ
  graha_maitri_score : ℕ
  gana_score : ℕ
  bhakuta_score : ℕ
  nadi_score : ℕ
  total_guna_score : ℕ
  overall_compatibility_percentage : ℚ

/-- `SynastryAnalyzer.calculate_total_compatibility`: the eight factor
scores, their sum, and `(total / 36) * 100`. -/
def calculate_total_compatibility (a b : ChartData) : CompatibilityResult :=
  let varna := calculate_varna_kuta a b
  let vashya := calculate_vashya_kuta a b
  let tara := calculate_tara_kuta a b
  let yoni := calculate_yoni_kuta a b
  let graha := calculate_graha_maitri a b
  let gana := calculate_gana_kuta a b
  let bhakuta := calculate_bhakuta_kuta a b
  let nadi := calculate_nadi_kuta a b
  let total := varna + vashya + tara + yoni + graha + gana + bhakuta + nadi
  ⟨varna, vashya, tara, yoni, graha, gana, bhakuta, nadi, total,
    (total : ℚ) / 36 * 100⟩

end Synastry

theorem grahaStep_eq_zero (pa pb : String) : Synastry.grahaStep pa pb = 0 := by
  unfold Synastry.grahaStep
  split
  · rename_i h
    subst h
    unfold Synastry.PLANET_FRIENDSHIP_friends
    split
    · rename_i friends heq
      repeat' split at heq
      all_goals try exact Option.noConfusion heq
      all_goals (injection heq with heq2; subst heq2; simp_all)
    · rfl
  · rfl

theorem foldl_keep {α : Type} (l : List α) (acc : ℕ) :
    l.foldl (fun a (_ : α) => a) acc = acc := by
  induction l generalizing acc with
  | nil => rfl
  | cons x rest ih => exact ih acc

theorem graha_inner_foldl (pa : String) (l : List String) (acc : ℕ) :
    l.foldl (fun acc2 pb => acc2 + Synastry.grahaStep pa pb) acc = acc := by
  simp only [grahaStep_eq_zero, Nat.add_zero]
  exact foldl_keep l acc

theorem graha_maitri_zero_aux (a b : Synastry.ChartData) :
    Synastry.calculate_graha_maitri a b = 0 := by
  unfold Synastry.calculate_graha_maitri
  simp only [graha_inner_foldl, foldl_keep]
  omega

/-- C10: the Graha Maitri factor always scores 0.  The friendship lookup is
reached only when a planet name of chart A equals a planet name of chart B,
and no planet of `PLANET_FRIENDSHIP` lists itself among its own friends, so
the accumulator never increments and `min(score, 5) = 0` for all pairs of
charts. -/
theorem calculate_graha_maitri_eq_zero (a b : Synastry.ChartData) :
    Synastry.calculate_graha_maitri a b = 0 :=
  graha_maitri_zero_aux a b

/-- C4: for every pair of charts, each of the eight factor scorers stays
within its fixed maximum (1, 2, 3, 4, 5, 6, 7, 8 — the scores are naturals,
so the lower bound 0 holds by construction), the result's total equals the
sum of the eight factor scores, that total is at most 36, and the overall
percentage is exactly `total / 36 * 100`. -/
theorem total_compatibility_invariants (a b : Synastry.ChartData) :
    (Synastry.calculate_total_compatibility a b).varna_score ≤ 1 ∧
    (Synastry.calculate_total_compatibility a b).vashya_score ≤ 2 ∧
    (Synastry.calculate_total_compatibility a b).tara_score ≤ 3 ∧
    (Synastry.calculate_total_compatibility a b).yoni_score ≤ 4 ∧
    (Synastry.calculate_total_compatibility a b).graha_maitri_score ≤ 5 ∧
    (Synastry.calculate_total_compatibility a b).gana_score ≤ 6 ∧
    (Synastry.calculate_total_compatibility a b).bhakuta_score ≤ 7 ∧
    (Synastry.calculate_total_compatibility a b).nadi_score ≤ 8 ∧
    (Synastry.calculate_total_compatibility a b).total_guna_score =
      (Synastry.calculate_total_compatibility a b).varna_score +
      (Synastry.calculate_total_compatibility a b).vashya_score +
      (Synastry.calculate_total_compatibility a b).tara_score +
      (Synastry.calculate_total_compatibility a b).yoni_score +
      (Synastry.calculate_total_compatibility a b).graha_maitri_score +
      (Synastry.calculate_total_compatibility a b).gana_score +
      (Synastry.calculate_total_compatibility a b).bhakuta_score +
      (Synastry.calculate_total_compatibility a b).nadi_score ∧
    (Synastry.calculate_total_compatibility a b).total_guna_score ≤ 36 ∧
    (Synastry.calculate_total_compatibility a b).overall_compatibility_percentage =
      ((Synastry.calculate_total_compatibility a b).total_guna_score : ℚ) / 36 * 100 := by
  have hvarna : Synastry.calculate_varna_kuta a b ≤ 1 := by
    unfold Synastry.calculate_varna_kuta; split <;> norm_num
  have hvashya : Synastry.calculate_vashya_kuta a b ≤ 2 := by
    unfold Synastry.calculate_vashya_kuta; split <;> norm_num
  have htara : Synastry.calculate_tara_kuta a b ≤ 3 := by
    unfold Synastry.calculate_tara_kuta; split <;> norm_num
  have hyoni : Synastry.calculate_yoni_kuta a b ≤ 4 := by
    unfold Synastry.calculate_yoni_kuta; norm_num
  have hgraha : Synastry.calculate_graha_maitri a b ≤ 5 := by
    rw [graha_maitri_zero_aux a b]
    norm_num
  have hgana : Synastry.calculate_gana_kuta a b ≤ 6 := by
    unfold Synastry.calculate_gana_kuta; split <;> norm_num
  have hbhakuta : Synastry.calculate_bhakuta_kuta a b ≤ 7 := by
    unfold Synastry.calculate_bhakuta_kuta; split <;> norm_num
  have hnadi : Synastry.calculate_nadi_kuta a b ≤ 8 := by
    unfold Synastry.calculate_nadi_kuta
    dsimp only
    split
    · norm_num
    · split <;> norm_num
  refine ⟨hvarna, hvashya, htara, hyoni, hgraha, hgana, hbhakuta, hnadi,
    rfl, ?_, rfl⟩
  show Synastry.calculate_varna_kuta a b + Synastry.calculate_vashya_kuta a b +
    Synastry.calculate_tara_kuta a b + Synastry.calculate_yoni_kuta a b +
    Synastry.calculate_graha_maitri a b + Synastry.calculate_gana_kuta a b +
    Synastry.calculate_bhakuta_kuta a b + Synastry.calculate_nadi_kuta a b ≤ 36
  omega

/-- C8: whenever both charts' moon nakshatras have a nadi class (the lookup
succeeds for both), the Nadi factor scores 0 if the two classes are equal
and the full 8 points if they differ. -/
theorem nadi_kuta_class_equality (a b : Synastry.ChartData) (na nb : String)
    (ha : Synastry.get_nadi_from_nakshatra (a.moon_nakshatra.getD "") = some na)
    (hb : Synastry.get_nadi_from_nakshatra (b.moon_nakshatra.getD "") = some nb)
    (hna : na ≠ "") (hnb : nb ≠ "") :
    Synastry.calculate_nadi_kuta a b = (if na = nb then 0 else 8) := by
  unfold Synastry.calculate_nadi_kuta
  rw [ha, hb]
  by_cases heq : na = nb
  · subst heq
    simp [Synastry.truthyStr]
  · have : (Synastry.truthyStr (some na) && Synastry.truthyStr (some nb) &&
        decide ((some na : Option String) ≠ some nb)) = true := by
      simp [Synastry.truthyStr, hna, hnb, heq]
    rw [if_pos this, if_neg heq]

def chartAadi : Synastry.ChartData := ⟨1, some "Ashwini", []⟩

def chartAadi2 : Synastry.ChartData := ⟨4, some "Ardra", []⟩

def chartMadhya : Synastry.ChartData := ⟨7, some "Bharani", []⟩

/-- Witness for `nadi_kuta_class_equality`: Ashwini and Ardra are both Aadi
(score 0); Ashwini (Aadi) against Bharani (Madhya) scores 8. -/
theorem nadi_kuta_class_equality_witness :
    Synastry.calculate_nadi_kuta chartAadi chartAadi2 = 0 ∧
    Synastry.calculate_nadi_kuta chartAadi chartMadhya = 8 := by
  constructor
  · have h := nadi_kuta_class_equality chartAadi chartAadi2 "Aadi" "Aadi"
      (by rfl) (by rfl) (by decide) (by decide)
    simpa using h
  · have h := nadi_kuta_class_equality chartAadi chartMadhya "Aadi" "Madhya"
      (by rfl) (by rfl) (by decide) (by decide)
    simpa using h

namespace KB

/-! ## `KnowledgeBase.load_json_ruleset` (same file as `apply_rule`)

Ingestion of a parsed JSON rule list.  A raw rule is an insertion-ordered
mapping from keys to values; ingestion only ever reads a fixed set of
string-valued keys (`id`, `category`, `type`, `subject`, `interpretation`,
`meaning`, `name`, `issue`, `remedy`, `remedies`, `source`), so values are
modelled opaquely as strings.  The `metadata` bookkeeping is omitted: its
`last_updated` field reads the wall clock and is outside the deterministic
store contents the ingestion claims compare. -/

abbrev RawRule := List (String × String)

/-- `rule.get(key)`. -/
def dget (r : RawRule) (k : String) : Option String := List.lookup k r

/-- Python dict assignment `d[k] = v`: overwrite in place, else append. -/
def assocSet {β : Type} (m : List (String × β)) (k : String) (v : β) :
    List (String × β) :=
  if (m.map Prod.fst).contains k then
    m.map (fun p => if p.1 = k then (k, v) else p)
  else m ++ [(k, v)]

/-- `defaultdict(list)` append `d[k].append(v)`. -/
def assocAppend {β : Type} (m : List (String × List β)) (k : String) (v : β) :
    List (String × List β) :=
  if (m.map Prod.fst).contains k then
    m.map (fun p => if p.1 = k then (p.1, p.2 ++ [v]) else p)
  else m ++ [(k, [v])]

/-- Stand-in for Python's `str(rule)` serialization of the (ordered) rule
dict: any injective-enough deterministic rendering works, since the
ingestion logic only feeds it to the content hash. -/
def strOfRawRule (r : RawRule) : String :=
  r.foldl (fun acc p => acc ++ p.1 ++ "=" ++ p.2 ++ ";") ""

/-- Stand-in for `hashlib.md5(s.encode()).hexdigest()[:8]`: an arbitrary
fixed deterministic string digest.  The only property the ingestion
algorithm relies on — and the only one used below — is that it is a pure
function of its input. -/
def md5_8 (s : String) : String :=
  toString (s.foldl (fun h c => (h * 31 + c.toNat) % 100000007) 7)

/-- The deterministic indexes a `KnowledgeBase` instance accumulates. -/
structure KnowledgeBase where
  rules : List (String × List RawRule)
  formulas : List (String × RawRule)
  interpretations : List (String × List (String × String))
  yogas : List (String × RawRule)
  doshas : List (String × RawRule)
  remedies : List (String × List RawRule)
deriving DecidableEq

def emptyKB : KnowledgeBase := ⟨[], [], [], [], [], []⟩

/-- Python `a or b` over optional strings (`None` and `""` are falsy). -/
def pyOr (a b : Option String) : Option String :=
  match a with
  | some s => if s ≠ "" then some s else b
  | none => b

/-- The body of the `for rule in rules_list` loop of `load_json_ruleset`:
category extraction (`category`/`type`/`"general"`), the in-place
`rule['source'] = source_name` mutation, category indexing, id assignment
(provided `id`, else the truncated md5 of the serialized mutated rule),
`formulas` assignment, and the conditional `interpretations`/`yogas`/
`doshas`/`remedies` indexing. -/
def ingestRule (source_name : String) (kb : KnowledgeBase) (rule : RawRule) :
    KnowledgeBase :=
  let category := (dget rule "category").getD ((dget rule "type").getD "general")
  let rule1 := assocSet rule "source" source_name
  let rules1 := assocAppend kb.rules category rule1
  let rule_id := (dget rule1 "id").getD (md5_8 (strOfRawRule rule1))
  let formulas1 := assocSet kb.formulas rule_id rule1
  let interp1 :=
    if (dget rule1 "interpretation").isSome ∨ (dget rule1 "meaning").isSome then
      let key := (dget rule1 "subject").getD "general"
      let text := (pyOr (dget rule1 "interpretation") (dget rule1 "meaning")).getD ""
      assocSet kb.interpretations key
        (assocSet ((List.lookup key kb.interpretations).getD []) rule_id text)
    else kb.interpretations
  let yogas1 :=
    if dget rule1 "type" = some "yoga" then
      assocSet kb.yogas ((dget rule1 "name").getD "unknown") rule1
    else kb.yogas
  let doshas1 :=
    if dget rule1 "type" = some "dosha" then
      assocSet kb.doshas ((dget rule1 "name").getD "unknown") rule1
    else kb.doshas
  let remedies1 :=
    if (dget rule1 "remedy").isSome ∨ (dget rule1 "remedies").isSome then
      assocAppend kb.remedies ((dget rule1 "issue").getD "general") rule1
    else kb.remedies
  ⟨rules1, formulas1, interp1, yogas1, doshas1, remedies1⟩

/-- `KnowledgeBase.load_json_ruleset` over an already-parsed list of rule
dicts (the JSON reading and the non-dict skip are I/O-side concerns). -/
def load_json_ruleset (kb : KnowledgeBase) (rules_list : List RawRule)
    (source_name : String) : KnowledgeBase :=
  rules_list.foldl (ingestRule source_name) kb

/-- `KnowledgeBase.get_rules_by_category`. -/
def get_rules_by_category (kb : KnowledgeBase) (category : String) :
    List RawRule :=
  (List.lookup category kb.rules).getD []

end KB

/-- C9: ingesting the same record sequence twice, each time into a fresh
store, yields stores with identical category indexes — the same rule ids
(provided `id`, or the deterministic content hash when absent) under the
same categories in the same order — because ingestion, content hash
included, is a pure function of the record contents; the two stores agree
wholesale. -/
theorem ingestion_deterministic (records : List KB.RawRule) (src : String)
    (kb₁ kb₂ : KB.KnowledgeBase)
    (h1 : kb₁ = KB.load_json_ruleset KB.emptyKB records src)
    (h2 : kb₂ = KB.load_json_ruleset KB.emptyKB records src) :
    (∀ c, KB.get_rules_by_category kb₁ c = KB.get_rules_by_category kb₂ c) ∧
    kb₁.formulas.map Prod.fst = kb₂.formulas.map Prod.fst ∧
    kb₁ = kb₂ := by
  subst h1
  subst h2
  exact ⟨fun c => rfl, rfl, rfl⟩

def recordWithId : KB.RawRule := [("id", "R1"), ("category", "marriage")]

def recordNoId : KB.RawRule := [("type", "dosha"), ("name", "mangal")]

/-- Witness for `ingestion_deterministic`: two concrete records (one with an
explicit id, one relying on the content hash) ingested twice from fresh. -/
theorem ingestion_deterministic_witness :
    (∀ c, KB.get_rules_by_category
        (KB.load_json_ruleset KB.emptyKB [recordWithId, recordNoId] "srcA") c =
      KB.get_rules_by_category
        (KB.load_json_ruleset KB.emptyKB [recordWithId, recordNoId] "srcA") c) ∧
    (KB.load_json_ruleset KB.emptyKB [recordWithId, recordNoId] "srcA").formulas.map
        Prod.fst =
      (KB.load_json_ruleset KB.emptyKB [recordWithId, recordNoId] "srcA").formulas.map
        Prod.fst ∧
    KB.load_json_ruleset KB.emptyKB [recordWithId, recordNoId] "srcA" =
      KB.load_json_ruleset KB.emptyKB [recordWithId, recordNoId] "srcA" :=
  ingestion_deterministic [recordWithId, recordNoId] "srcA" _ _ rfl rfl

/-- Witness for `apply_rule_totality_boundary`: a one-condition equality
rule on the chart `{x: 2}` returns a result; on an absent `y`, an equality
against 3 is a quiet non-match while an equality against `None` and a
`OneOf` list containing `None` both match; a bounded range on an absent `y`
faults. -/
theorem apply_rule_totality_boundary_witness :
    (∃ out, KB.apply_rule ⟨[KB.condEqX], 1, "r"⟩ KB.chartX = .ok out) ∧
    KB.evalCond [] ("y", KB.CondVal.scalar (KB.PyVal.num 3)) = .ok false ∧
    KB.evalCond [] ("y", KB.CondVal.scalar KB.PyVal.pyNone) = .ok true ∧
    KB.evalCond [] ("y", KB.CondVal.oneOf [KB.PyVal.pyNone]) = .ok true ∧
    KB.evalCond [] ("y", KB.CondVal.oneOf [KB.PyVal.str "a"]) = .ok false ∧
    KB.evalCond [] ("y", KB.CondVal.range (some 1) (some 4)) = .error () := by
  refine ⟨?_, ?_, ?_, ?_, ?_, ?_⟩
  · refine apply_rule_totality_boundary.1 ⟨[KB.condEqX], 1, "r"⟩ KB.chartX ?_
    intro c hc mi ma
    rcases List.mem_cons.1 hc with h | h
    · subst h
      simp [KB.condEqX]
    · cases h
  · have h := apply_rule_totality_boundary.2.1 [] "y" (KB.PyVal.num 3) rfl
    exact h.trans (congrArg Except.ok (by decide))
  · have h := apply_rule_totality_boundary.2.1 [] "y" KB.PyVal.pyNone rfl
    exact h.trans (congrArg Except.ok (by decide))
  · have h := apply_rule_totality_boundary.2.2.1 [] "y" [KB.PyVal.pyNone] rfl
    exact h.trans (congrArg Except.ok (by decide))
  · have h := apply_rule_totality_boundary.2.2.1 [] "y" [KB.PyVal.str "a"] rfl
    exact h.trans (congrArg Except.ok (by decide))
  · refine apply_rule_totality_boundary.2.2.2 [] "y" (some 1) (some 4)
      (by simp) ?_
    intro q h
    exact KB.PyVal.noConfusion h
